import Mathlib

/-!
# VkEntityManager: `Code/Entity.cpp`

A shallow embedding of the `Entity` class and of the library calls it makes,
followed by the properties of the transform composition, of the uniform
buffer, and of the recorded draw commands.

Scalars: the program computes with `float`.  The definitions are written
over a type `R` that carries the operations the code uses and no law
(`Scalar`), so that every statement about them holds of rounded arithmetic.
`F32` is `float` itself, with rounding to nearest, infinities and NaN;
`ExactScalar` is arithmetic without rounding, used where a statement says
what the same expressions are worth when nothing is rounded.
-/

/-- Scalars of the embedding: the operations on `float` that `Entity.cpp` and
the matrix library use.  No law is assumed of them. -/
class Scalar (R : Type) extends Add R, Sub R, Mul R, Zero R, One R where
  cos : R → R
  sin : R → R
  inversesqrt : R → R

/-- Scalars without rounding: a commutative ring with the three elementary
functions, of which only `inversesqrt 1 = 1` is asked. -/
class ExactScalar (K : Type) extends CommRing K where
  cos : K → K
  sin : K → K
  inversesqrt : K → K
  inversesqrt_one : inversesqrt 1 = 1

instance (K : Type) [ExactScalar K] : Scalar K :=
  { toAdd := inferInstance
    toSub := inferInstance
    toMul := inferInstance
    toZero := inferInstance
    toOne := inferInstance
    cos := ExactScalar.cos
    sin := ExactScalar.sin
    inversesqrt := ExactScalar.inversesqrt }

/-- Cosine of an integer angle counted in quarter turns. -/
def quarterCos (a : ℤ) : ℤ :=
  if a % 4 = 0 then 1 else if a % 4 = 2 then -1 else 0

/-- Sine of an integer angle counted in quarter turns. -/
def quarterSin (a : ℤ) : ℤ :=
  if a % 4 = 1 then 1 else if a % 4 = 3 then -1 else 0

/-- Integer part of the inverse square root. -/
def intInversesqrt (x : ℤ) : ℤ :=
  if x = 1 then 1 else 0

/-- Integer scalars, with angles counted in quarter turns so that `cos` and
`sin` are exact.  Used to evaluate the embedding on concrete inputs. -/
instance : ExactScalar ℤ :=
  { (inferInstance : CommRing ℤ) with
    cos := quarterCos
    sin := quarterSin
    inversesqrt := intInversesqrt
    inversesqrt_one := rfl }

/-! ## The type `float` -/

/-- Values of `float`, IEEE 754 binary32: a finite value is `m * 2 ^ e` with
`m` odd, or zero (`fin 0 0`).  The sign of a zero and the payload of a NaN
are not represented. -/
inductive F32 where
  | nan
  | inf (neg : Bool)
  | fin (m : Int) (e : Int)
deriving DecidableEq

namespace F32

/-- Auxiliary for `bits`: binary search for the position of the leading digit. -/
def log2Go : Nat → Nat → Nat → Nat
  | 0, _, acc => acc
  | f + 1, n, acc =>
    if n >>> (acc + 2 ^ f) = 0 then log2Go f n acc else log2Go f n (acc + 2 ^ f)

/-- Number of binary digits of `n`. -/
def bits (n : Nat) : Nat :=
  if n = 0 then 0 else log2Go 12 n 0 + 1

/-- Removes the trailing zero digits of a significand below `2 ^ 32`. -/
def strip : Nat → Nat → Int → Nat × Int
  | 0, n, e => (n, e)
  | f + 1, n, e =>
    if n % (1 <<< 2 ^ f) = 0 then strip f (n >>> 2 ^ f) (e + (2 ^ f : Nat)) else strip f n e

/-- The integer `n` with the sign `neg`. -/
def signed (neg : Bool) (n : Nat) : Int :=
  if neg then -(n : Int) else (n : Int)

/-- Rounding to nearest, ties to even, of the number `± n * 2 ^ e` to binary32:
24 significant digits, least exponent `-149`, overflow to infinity. -/
def round (neg : Bool) (n : Nat) (e : Int) : F32 :=
  if n = 0 then fin 0 0 else
    let t : Int := max (e + (bits n : Int) - 24) (-149)
    let q : Nat :=
      if t ≤ e then n <<< (e - t).toNat
      else
        let sh := (t - e).toNat
        let q := n >>> sh
        let r := n % (1 <<< sh)
        let half := 1 <<< (sh - 1)
        if half < r ∨ (r = half ∧ q % 2 = 1) then q + 1 else q
    if q = 0 then fin 0 0
    else if 128 < (bits q : Int) + t then inf neg
    else fin (signed neg (strip 5 q t).1) (strip 5 q t).2

/-- Negation. -/
def neg : F32 → F32
  | nan => nan
  | inf s => inf (!s)
  | fin m e => fin (-m) e

/-- Addition, `operator+` on `float`. -/
def add : F32 → F32 → F32
  | nan, _ => nan
  | _, nan => nan
  | inf a, inf b => if a = b then inf a else nan
  | inf a, fin _ _ => inf a
  | fin _ _, inf b => inf b
  | fin m1 e1, fin m2 e2 =>
    let e := min e1 e2
    let x := m1 * ((1 <<< (e1 - e).toNat : Nat) : Int) + m2 * ((1 <<< (e2 - e).toNat : Nat) : Int)
    round (decide (x < 0)) x.natAbs e

/-- Subtraction, `operator-` on `float`. -/
def sub (a b : F32) : F32 :=
  add a (neg b)

/-- Multiplication, `operator*` on `float`. -/
def mul : F32 → F32 → F32
  | nan, _ => nan
  | _, nan => nan
  | inf a, inf b => inf (a != b)
  | inf a, fin m _ => if m = 0 then nan else inf (a != decide (m < 0))
  | fin m _, inf b => if m = 0 then nan else inf (decide (m < 0) != b)
  | fin m1 e1, fin m2 e2 => round (decide (m1 * m2 < 0)) (m1 * m2).natAbs (e1 + e2)

/-- Auxiliary for `isqrt`: Newton steps downwards from an upper bound. -/
def isqrtGo : Nat → Nat → Nat → Nat
  | 0, _, x => x
  | f + 1, n, x =>
    let y := (x + n / x) / 2
    if y < x then isqrtGo f n y else x

/-- Integer square root. -/
def isqrt (n : Nat) : Nat :=
  if n = 0 then 0 else isqrtGo 64 n (1 <<< ((bits n + 1) / 2))

/-- Square root, `sqrt` on `float`, correctly rounded. -/
def sqrt : F32 → F32
  | nan => nan
  | inf s => if s then nan else inf false
  | fin m e =>
    if m = 0 then fin 0 0
    else if m < 0 then nan
    else
      let s : Int := 64 + (e - 64) % 2
      let n := m.natAbs <<< s.toNat
      let r := isqrt n
      round false (2 * r + (if r * r = n then 0 else 1)) ((e - s) / 2 - 1)

/-- Division, `operator/` on `float`, correctly rounded. -/
def div : F32 → F32 → F32
  | nan, _ => nan
  | _, nan => nan
  | inf _, inf _ => nan
  | inf a, fin m _ => inf (a != decide (m < 0))
  | fin _ _, inf _ => fin 0 0
  | fin m1 e1, fin m2 e2 =>
    if m2 = 0 then (if m1 = 0 then nan else inf (decide (m1 < 0) != decide (m2 < 0)))
    else
      let a := m1.natAbs <<< 64
      let b := m2.natAbs
      round (decide (m1 < 0) != decide (m2 < 0)) (2 * (a / b) + (if a % b = 0 then 0 else 1))
        (e1 - e2 - 65)

/-- The function `glm::inversesqrt` on `float`: `1 / sqrt(x)`. -/
def inversesqrt (x : F32) : F32 :=
  div (fin 1 0) (sqrt x)

/-- Number of fractional digits of the fixed-point numbers used for `cos` and `sin`. -/
def fracBits : Nat := 320

/-- The integer part of `2 * pi * 2 ^ 320`. -/
def twoPi : Int :=
  13420802360424337830311681948440006481608388178854297901454212848703426437343610760199000777828079

/-- The argument `m * 2 ^ e` reduced to `[-pi, pi]`, as a fixed-point number. -/
def reduce (m e : Int) : Int :=
  let x := m * ((1 <<< (e + (fracBits : Int)).toNat : Nat) : Int)
  x - (2 * x + twoPi) / (2 * twoPi) * twoPi

/-- Auxiliary for `cos` and `sin`: the terms of the power series from index
`k` on, each obtained from the one before, added to `acc`; `d` is `0` for
the cosine and `1` for the sine. -/
def seriesGo : Nat → Nat → Nat → Int → Int → Int → Int
  | 0, _, _, _, _, acc => acc
  | f + 1, d, k, r2, term, acc =>
    let next := -term * r2 / ((1 <<< fracBits : Nat) : Int) /
      (((2 * k + 1 + d) * (2 * k + 2 + d) : Nat) : Int)
    seriesGo f d (k + 1) r2 next (acc + next)

/-- The function `cos` on `float`: the cosine of the argument, rounded to
nearest.  The `cosf` of a platform may differ from it in the last digit. -/
def cos : F32 → F32
  | fin m e =>
    let r := reduce m e
    let one : Int := ((1 <<< fracBits : Nat) : Int)
    let c := seriesGo 40 0 0 (r * r / one) one one
    round (decide (c < 0)) c.natAbs (-(fracBits : Int))
  | _ => nan

/-- The function `sin` on `float`: the sine of the argument, rounded to
nearest.  The `sinf` of a platform may differ from it in the last digit. -/
def sin : F32 → F32
  | fin m e =>
    let r := reduce m e
    let one : Int := ((1 <<< fracBits : Nat) : Int)
    let s := seriesGo 40 1 0 (r * r / one) r r
    round (decide (s < 0)) s.natAbs (-(fracBits : Int))
  | _ => nan

/-- The value of an integer, rounded to nearest. -/
def ofInt (n : Int) : F32 :=
  round (decide (n < 0)) n.natAbs 0

/-- The integer a value is, when it is one. -/
def toInt? : F32 → Option Int
  | fin m e => if 0 ≤ e then some (m * ((1 <<< e.toNat : Nat) : Int)) else none
  | _ => none

end F32

/-- The scalars of the program: `float`. -/
instance : Scalar F32 :=
  { add := F32.add
    sub := F32.sub
    mul := F32.mul
    zero := F32.fin 0 0
    one := F32.fin 1 0
    cos := F32.cos
    sin := F32.sin
    inversesqrt := F32.inversesqrt }

/-! ## The matrix library

The types and functions of GLM that `Entity.cpp` calls, after the library's
own definitions: matrices are stored by columns, and `translate`, `rotate`
and `scale` multiply their first argument on the right. -/

namespace glm

/-- The type `glm::vec3`. -/
@[ext]
structure vec3 (R : Type) where
  x : R
  y : R
  z : R
deriving DecidableEq

/-- The type `glm::vec4`. -/
@[ext]
structure vec4 (R : Type) where
  x : R
  y : R
  z : R
  w : R
deriving DecidableEq

/-- The type `glm::mat4` (`glm::mat4x4`): four columns, `m[i]` is column `i`
and `m[i][j]` the entry in column `i`, row `j`. -/
structure mat4 (R : Type) where
  c0 : vec4 R
  c1 : vec4 R
  c2 : vec4 R
  c3 : vec4 R
deriving DecidableEq

variable {R : Type} [Scalar R]

/-- Component-wise sum, `vec4 + vec4`. -/
def vec4.add (a b : vec4 R) : vec4 R :=
  ⟨a.x + b.x, a.y + b.y, a.z + b.z, a.w + b.w⟩

/-- Product with a scalar on the right, `vec4 * T`. -/
def vec4.muls (a : vec4 R) (s : R) : vec4 R :=
  ⟨a.x * s, a.y * s, a.z * s, a.w * s⟩

instance : Add (vec4 R) := ⟨vec4.add⟩

instance : HMul (vec4 R) R (vec4 R) := ⟨vec4.muls⟩

/-- Product with a scalar on the right, `vec3 * T`. -/
def vec3.muls (a : vec3 R) (s : R) : vec3 R :=
  ⟨a.x * s, a.y * s, a.z * s⟩

/-- Product with a scalar on the left, `T * vec3`. -/
def vec3.smul (s : R) (a : vec3 R) : vec3 R :=
  ⟨s * a.x, s * a.y, s * a.z⟩

/-- The conversion `glm::vec3(v)` of a `vec4`: its first three components. -/
def vec4.xyz (v : vec4 R) : vec3 R :=
  ⟨v.x, v.y, v.z⟩

/-- The function `glm::dot` on `vec3`. -/
def dot (a b : vec3 R) : R :=
  a.x * b.x + a.y * b.y + a.z * b.z

/-- The function `glm::normalize` on `vec3`: `v * inversesqrt(dot(v, v))`. -/
def normalize (v : vec3 R) : vec3 R :=
  vec3.muls v (Scalar.inversesqrt (dot v v))

/-- The matrix `glm::mat4(1.0f)`. -/
def mat4.identity : mat4 R :=
  ⟨⟨1, 0, 0, 0⟩, ⟨0, 1, 0, 0⟩, ⟨0, 0, 1, 0⟩, ⟨0, 0, 0, 1⟩⟩

/-- The product `mat4 * mat4`: column `i` of the result is `m1` applied to
column `i` of `m2`. -/
def mat4.mul (m1 m2 : mat4 R) : mat4 R :=
  { c0 := m1.c0 * m2.c0.x + m1.c1 * m2.c0.y + m1.c2 * m2.c0.z + m1.c3 * m2.c0.w
    c1 := m1.c0 * m2.c1.x + m1.c1 * m2.c1.y + m1.c2 * m2.c1.z + m1.c3 * m2.c1.w
    c2 := m1.c0 * m2.c2.x + m1.c1 * m2.c2.y + m1.c2 * m2.c2.z + m1.c3 * m2.c2.w
    c3 := m1.c0 * m2.c3.x + m1.c1 * m2.c3.y + m1.c2 * m2.c3.z + m1.c3 * m2.c3.w }

instance : Mul (mat4 R) := ⟨mat4.mul⟩

/-- The function `glm::translate(m, v)`. -/
def translate (m : mat4 R) (v : vec3 R) : mat4 R :=
  { m with c3 := m.c0 * v.x + m.c1 * v.y + m.c2 * v.z + m.c3 }

/-- The function `glm::rotate(m, angle, v)`. -/
def rotate (m : mat4 R) (angle : R) (v : vec3 R) : mat4 R :=
  let c := Scalar.cos angle
  let s := Scalar.sin angle
  let axis := normalize v
  let temp := vec3.smul (1 - c) axis
  let r00 := c + temp.x * axis.x
  let r01 := temp.x * axis.y + s * axis.z
  let r02 := temp.x * axis.z - s * axis.y
  let r10 := temp.y * axis.x - s * axis.z
  let r11 := c + temp.y * axis.y
  let r12 := temp.y * axis.z + s * axis.x
  let r20 := temp.z * axis.x + s * axis.y
  let r21 := temp.z * axis.y - s * axis.x
  let r22 := c + temp.z * axis.z
  { c0 := m.c0 * r00 + m.c1 * r01 + m.c2 * r02
    c1 := m.c0 * r10 + m.c1 * r11 + m.c2 * r12
    c2 := m.c0 * r20 + m.c1 * r21 + m.c2 * r22
    c3 := m.c3 }

/-- The function `glm::scale(m, v)`. -/
def scale (m : mat4 R) (v : vec3 R) : mat4 R :=
  { c0 := m.c0 * v.x
    c1 := m.c1 * v.y
    c2 := m.c2 * v.z
    c3 := m.c3 }

/-- The sixteen scalars of a `mat4` in memory order, as read from
`&m[0][0]`: column after column. -/
def mat4.toList (m : mat4 R) : List R :=
  [m.c0.x, m.c0.y, m.c0.z, m.c0.w,
   m.c1.x, m.c1.y, m.c1.z, m.c1.w,
   m.c2.x, m.c2.y, m.c2.z, m.c2.w,
   m.c3.x, m.c3.y, m.c3.z, m.c3.w]

/-- A `mat4` as a mathematical matrix: entry `(i, j)` is row `i` of column `j`. -/
def mat4.toMatrix (m : mat4 R) : Matrix (Fin 4) (Fin 4) R :=
  !![m.c0.x, m.c1.x, m.c2.x, m.c3.x;
     m.c0.y, m.c1.y, m.c2.y, m.c3.y;
     m.c0.z, m.c1.z, m.c2.z, m.c3.z;
     m.c0.w, m.c1.w, m.c2.w, m.c3.w]

/-- The `vec3` with `f` applied to each component. -/
def vec3.map {A B : Type} (f : A → B) (v : vec3 A) : vec3 B :=
  ⟨f v.x, f v.y, f v.z⟩

/-- The `vec4` with `f` applied to each component. -/
def vec4.map {A B : Type} (f : A → B) (v : vec4 A) : vec4 B :=
  ⟨f v.x, f v.y, f v.z, f v.w⟩

/-- The `mat4` with `f` applied to each entry. -/
def mat4.map {A B : Type} (f : A → B) (m : mat4 A) : mat4 B :=
  ⟨m.c0.map f, m.c1.map f, m.c2.map f, m.c3.map f⟩

/-- The `mat4` with the entries of a mathematical matrix. -/
def mat4.ofMatrix (A : Matrix (Fin 4) (Fin 4) R) : mat4 R :=
  { c0 := ⟨A 0 0, A 1 0, A 2 0, A 3 0⟩
    c1 := ⟨A 0 1, A 1 1, A 2 1, A 3 1⟩
    c2 := ⟨A 0 2, A 1 2, A 2 2, A 3 2⟩
    c3 := ⟨A 0 3, A 1 3, A 2 3, A 3 3⟩ }

end glm

/-! ## Graphics-API vocabulary used by `Entity.cpp` -/

/-- Graphics-API object handles (`VkBuffer`, `VkDescriptorSet`, `VkImageView`, ...). -/
abbrev Handle := Nat

/-- Size in bytes of a `float`. -/
def sizeof_float : Nat := 4

/-- Size in bytes of a `glm::mat4x4`: sixteen floats, `sizeof(MVP)`. -/
def sizeof_mat4 : Nat := 4 * 4 * sizeof_float

/-- Size in bytes of `uniform_struct`, whose only member is `glm::mat4x4 mvp`. -/
def sizeof_uniform_struct : Nat := sizeof_mat4

/-- The values of `VkStructureType` that the file uses. -/
inductive VkStructureType where
  | VK_STRUCTURE_TYPE_APPLICATION_INFO
  | VK_STRUCTURE_TYPE_BUFFER_CREATE_INFO
  | VK_STRUCTURE_TYPE_DESCRIPTOR_SET_ALLOCATE_INFO
  | VK_STRUCTURE_TYPE_WRITE_DESCRIPTOR_SET
deriving DecidableEq

/-- Buffer usage flags. -/
inductive VkBufferUsageFlagBits where
  | VK_BUFFER_USAGE_UNIFORM_BUFFER_BIT
  | VK_BUFFER_USAGE_INDEX_BUFFER_BIT
  | VK_BUFFER_USAGE_VERTEX_BUFFER_BIT
deriving DecidableEq

/-- Descriptor types. -/
inductive VkDescriptorType where
  | VK_DESCRIPTOR_TYPE_SAMPLER
  | VK_DESCRIPTOR_TYPE_COMBINED_IMAGE_SAMPLER
  | VK_DESCRIPTOR_TYPE_SAMPLED_IMAGE
  | VK_DESCRIPTOR_TYPE_UNIFORM_BUFFER
  | VK_DESCRIPTOR_TYPE_STORAGE_BUFFER
deriving DecidableEq

/-- Image layouts. -/
inductive VkImageLayout where
  | VK_IMAGE_LAYOUT_UNDEFINED
  | VK_IMAGE_LAYOUT_GENERAL
  | VK_IMAGE_LAYOUT_SHADER_READ_ONLY_OPTIMAL
deriving DecidableEq

/-- Pipeline bind points. -/
inductive VkPipelineBindPoint where
  | VK_PIPELINE_BIND_POINT_GRAPHICS
  | VK_PIPELINE_BIND_POINT_COMPUTE
deriving DecidableEq

/-- Index types. -/
inductive VkIndexType where
  | VK_INDEX_TYPE_UINT16
  | VK_INDEX_TYPE_UINT32
deriving DecidableEq

/-- The structure `VkBufferCreateInfo`, with the members the constructor sets. -/
structure VkBufferCreateInfo where
  sType : VkStructureType
  usage : VkBufferUsageFlagBits
  size : Nat
deriving DecidableEq

/-- The structure `VkDescriptorSetAllocateInfo`; `pSetLayouts` with
`descriptorSetCount` is the list of layouts. -/
structure VkDescriptorSetAllocateInfo where
  sType : VkStructureType
  descriptorPool : Handle
  descriptorSetCount : Nat
  pSetLayouts : List Handle
deriving DecidableEq

/-- The structure `VkDescriptorBufferInfo`. -/
structure VkDescriptorBufferInfo where
  buffer : Handle
  offset : Nat
  range : Nat
deriving DecidableEq

/-- The structure `VkDescriptorImageInfo`. -/
structure VkDescriptorImageInfo where
  sampler : Handle
  imageView : Handle
  imageLayout : VkImageLayout
deriving DecidableEq

/-- The structure `VkWriteDescriptorSet`; a null pointer is `none`. -/
structure VkWriteDescriptorSet where
  sType : VkStructureType
  dstSet : Handle
  dstBinding : Nat
  dstArrayElement : Nat
  descriptorCount : Nat
  descriptorType : VkDescriptorType
  pImageInfo : Option VkDescriptorImageInfo
  pBufferInfo : Option VkDescriptorBufferInfo
deriving DecidableEq

/-- Commands recorded into a `VkCommandBuffer`.  A count with a pointer to
an array is the list of the array's elements. -/
inductive VkCmd where
  | BindDescriptorSets (pipelineBindPoint : VkPipelineBindPoint) (layout : Handle)
      (firstSet : Nat) (pDescriptorSets : List Handle) (pDynamicOffsets : List Nat)
  | BindVertexBuffers (firstBinding : Nat) (pBuffers : List Handle) (pOffsets : List Nat)
  | BindIndexBuffer (buffer : Handle) (offset : Nat) (indexType : VkIndexType)
  | DrawIndexed (indexCount : Nat) (instanceCount : Nat) (firstIndex : Nat)
      (vertexOffset : Int) (firstInstance : Nat)
deriving DecidableEq

/-- A command buffer in the recording state: the commands recorded so far. -/
abbrev VkCommandBuffer := List VkCmd

/-- Descriptor-set calls made on the device. -/
inductive VkCall where
  | AllocateDescriptorSets (device : Handle) (pAllocateInfo : VkDescriptorSetAllocateInfo)
      (pDescriptorSets : List Handle)
  | UpdateDescriptorSets (device : Handle) (pDescriptorWrites : List VkWriteDescriptorSet)
      (descriptorCopyCount : Nat)
deriving DecidableEq

/-! ## Collaborators declared outside `Entity.cpp` -/

/-- Modelled from the spec: the class `BufferGPU`, declared outside `Entity.cpp`; a
buffer on the GPU, of which the file reads the handle `buffer`. -/
structure BufferGPU where
  buffer : Handle
deriving DecidableEq

/-- Modelled from the spec: the class `Mesh`, declared outside `Entity.cpp`; its
vertex and index buffers and its index count, the members the file reads. -/
structure Mesh where
  vertexDataGPU : BufferGPU
  indexDataGPU : BufferGPU
  numIndices : Nat
deriving DecidableEq

/-- Modelled from the spec: the class `TextureGPU`, declared outside `Entity.cpp`;
the GPU image, of which the file reads the handle `imageView`. -/
structure TextureGPU where
  imageView : Handle
deriving DecidableEq

/-- Modelled from the spec: the class `Texture`, declared outside `Entity.cpp`; the
file reads its member `textureGPU`. -/
structure Texture where
  textureGPU : TextureGPU
deriving DecidableEq

/-- Modelled from the spec: the class `Demo`, the device context, declared
outside `Entity.cpp`; the members are those the file reads. -/
structure Demo where
  device : Handle
  memory_properties : Nat
  desc_pool : Handle
  desc_layout : Handle
  sampler : Handle
deriving DecidableEq

/-- Resources that can be live. -/
inductive Resource where
  | buffer (h : Handle)
  | descriptorSet (h : Handle)
  | mesh (m : Mesh)
  | texture (t : Texture)
deriving DecidableEq

/-- State of the graphics API: the live resources, the next unused handle
value, and the descriptor-set calls made so far. -/
structure Vk where
  live : List Resource
  fresh : Handle
  calls : List VkCall
deriving DecidableEq

/-- Modelled from the spec: the class `BufferCPU`, declared outside
`Entity.cpp`; a buffer with CPU-visible memory.  `data` is the memory, one
cell for each `float` (cell `k` is bytes `4 * k` to `4 * k + 3`); a cell
nothing was stored to is `none`. -/
structure BufferCPU (R : Type) where
  buffer : Handle
  info : VkBufferCreateInfo
  data : List (Option R)
deriving DecidableEq

/-- Modelled from the spec: `new BufferCPU(device, memory_properties, info)`,
whose body is not in `Entity.cpp`.  It creates one buffer of `info.size`
bytes of host-visible memory, to which nothing has been stored yet. -/
def BufferCPU.new {R : Type} (_device : Handle) (_memory_properties : Nat)
    (info : VkBufferCreateInfo) (vk : Vk) : BufferCPU R × Vk :=
  ({ buffer := vk.fresh, info := info, data := List.replicate (info.size / sizeof_float) none },
   { vk with live := Resource.buffer vk.fresh :: vk.live, fresh := vk.fresh + 1 })

/-- Modelled from the spec: `delete` on a `BufferCPU`, whose destructor is
not in `Entity.cpp`.  It releases the buffer. -/
def BufferCPU.delete {R : Type} (b : BufferCPU R) (vk : Vk) : Vk :=
  { vk with live := vk.live.erase (Resource.buffer b.buffer) }

/-- Modelled from the spec: `BufferCPU::Store(data, size)`, whose body is
not in `Entity.cpp`.  It copies `size` bytes from `data` to the start of the
buffer's memory; it is `none` when the copy would leave the source or the
buffer. -/
def BufferCPU.Store {R : Type} (b : BufferCPU R) (data : List R) (size : Nat) :
    Option (BufferCPU R) :=
  let n := size / sizeof_float
  if size ≤ b.info.size ∧ n ≤ data.length ∧ n ≤ b.data.length then
    some { b with data := (data.take n).map some ++ b.data.drop n }
  else
    none

/-- The call `vkAllocateDescriptorSets`: one new descriptor set for each
layout, taken from the pool. -/
def vkAllocateDescriptorSets (device : Handle) (pAllocateInfo : VkDescriptorSetAllocateInfo)
    (vk : Vk) : List Handle × Vk :=
  let sets := (List.range pAllocateInfo.descriptorSetCount).map (fun i => vk.fresh + i)
  (sets,
   { live := sets.map Resource.descriptorSet ++ vk.live
     fresh := vk.fresh + pAllocateInfo.descriptorSetCount
     calls := vk.calls ++ [VkCall.AllocateDescriptorSets device pAllocateInfo sets] })

/-- The call `vkUpdateDescriptorSets`. -/
def vkUpdateDescriptorSets (device : Handle) (pDescriptorWrites : List VkWriteDescriptorSet)
    (descriptorCopyCount : Nat) (vk : Vk) : Vk :=
  { vk with calls := vk.calls ++
      [VkCall.UpdateDescriptorSets device pDescriptorWrites descriptorCopyCount] }

/-! ## The class `Entity` -/

/-- Modelled from the spec: the transform members of `Entity`, declared in
`Entity.h`, which is outside `Entity.cpp`: position, rotation, scale, the
parent's matrix and the cached model matrix, under the names the file uses. -/
structure Transform (R : Type) where
  pos : glm.vec3 R
  rot : glm.vec3 R
  scale : glm.vec3 R
  parentModelMatrix : glm.mat4 R
  modelMatrix : glm.mat4 R
deriving DecidableEq

/-- Modelled from the spec: the class `Entity`, declared in `Entity.h`: the
transform members, the mesh and the texture it refers to, the uniform buffer
it owns and its descriptor set, under the names the file uses. -/
structure Entity (R : Type) extends Transform R where
  mesh : Mesh
  texture : Texture
  matrixBufferCPU : BufferCPU R
  descriptor_set : Handle
deriving DecidableEq

/-- The transform with `f` applied to each scalar. -/
def Transform.map {A B : Type} (f : A → B) (t : Transform A) : Transform B :=
  { pos := t.pos.map f
    rot := t.rot.map f
    scale := t.scale.map f
    parentModelMatrix := t.parentModelMatrix.map f
    modelMatrix := t.modelMatrix.map f }

namespace Entity

variable {R : Type} [Scalar R]

/-- The method `Entity::CreateDescriptorSet`. -/
def CreateDescriptorSet (e : Entity R) (demo : Demo) (vk : Vk) : Entity R × Vk :=
  let alloc_info : VkDescriptorSetAllocateInfo :=
    { sType := .VK_STRUCTURE_TYPE_DESCRIPTOR_SET_ALLOCATE_INFO
      descriptorPool := demo.desc_pool
      descriptorSetCount := 1
      pSetLayouts := [demo.desc_layout] }
  let (sets, vk) := vkAllocateDescriptorSets demo.device alloc_info vk
  let e := { e with descriptor_set := sets.headD e.descriptor_set }
  let buffer_info : VkDescriptorBufferInfo :=
    { buffer := e.matrixBufferCPU.buffer
      offset := 0
      range := sizeof_uniform_struct }
  let texDesc : VkDescriptorImageInfo :=
    { sampler := demo.sampler
      imageView := e.texture.textureGPU.imageView
      imageLayout := .VK_IMAGE_LAYOUT_SHADER_READ_ONLY_OPTIMAL }
  let writes : List VkWriteDescriptorSet :=
    [{ sType := .VK_STRUCTURE_TYPE_WRITE_DESCRIPTOR_SET
       descriptorCount := 1
       dstSet := e.descriptor_set
       dstBinding := 0
       dstArrayElement := 0
       descriptorType := .VK_DESCRIPTOR_TYPE_UNIFORM_BUFFER
       pBufferInfo := some buffer_info
       pImageInfo := none },
     { sType := .VK_STRUCTURE_TYPE_WRITE_DESCRIPTOR_SET
       descriptorCount := 1
       dstSet := e.descriptor_set
       dstBinding := 1
       dstArrayElement := 0
       descriptorType := .VK_DESCRIPTOR_TYPE_COMBINED_IMAGE_SAMPLER
       pBufferInfo := none
       pImageInfo := some texDesc }]
  (e, vkUpdateDescriptorSets demo.device writes 0 vk)

/-- The constructor `Entity::Entity(m, t, demo)`.  The members it does not
assign (`members`, and the descriptor-set handle before allocation) hold
what the class declaration gives them. -/
def new (m : Mesh) (t : Texture) (demo : Demo) (members : Transform R)
    (descriptor_set : Handle) (vk : Vk) : Entity R × Vk :=
  let buf_info : VkBufferCreateInfo :=
    { sType := .VK_STRUCTURE_TYPE_BUFFER_CREATE_INFO
      usage := .VK_BUFFER_USAGE_UNIFORM_BUFFER_BIT
      size := sizeof_uniform_struct }
  let (matrixBufferCPU, vk) := BufferCPU.new demo.device demo.memory_properties buf_info vk
  let e : Entity R :=
    { toTransform := members
      mesh := m
      texture := t
      matrixBufferCPU := matrixBufferCPU
      descriptor_set := descriptor_set }
  CreateDescriptorSet e demo vk

/-- The destructor `Entity::~Entity`. -/
def delete (e : Entity R) (vk : Vk) : Vk :=
  e.matrixBufferCPU.delete vk

/-- The method `Entity::Draw`: the entity afterwards and the command buffer
with the recorded commands. -/
def Draw (e : Entity R) (cmd : VkCommandBuffer) (pipeline_layout : Handle) :
    Entity R × VkCommandBuffer :=
  let cmd := cmd ++ [VkCmd.BindDescriptorSets .VK_PIPELINE_BIND_POINT_GRAPHICS pipeline_layout 0
    [e.descriptor_set] []]
  let offsets : List Nat := [0]
  let cmd := cmd ++ [VkCmd.BindVertexBuffers 0 [e.mesh.vertexDataGPU.buffer] offsets]
  let cmd := cmd ++ [VkCmd.BindIndexBuffer e.mesh.indexDataGPU.buffer 0 .VK_INDEX_TYPE_UINT16]
  let cmd := cmd ++ [VkCmd.DrawIndexed e.mesh.numIndices 1 0 0 1]
  (e, cmd)

/-- The method `Entity::GetModelMatrix`: the returned matrix and the entity
afterwards. -/
def GetModelMatrix (e : Entity R) : glm.mat4 R × Entity R :=
  let model := e.parentModelMatrix
  let model := glm.translate model e.pos
  let model := glm.rotate model e.rot.y ⟨0, 1, 0⟩
  let model := glm.rotate model e.rot.x ⟨1, 0, 0⟩
  let model := glm.rotate model e.rot.z ⟨0, 0, 1⟩
  let model := glm.scale model e.scale
  let e := { e with modelMatrix := model }
  (e.modelMatrix, e)

/-- The method `Entity::Update`: `none` when the store leaves the buffer.
The local `temporaryData` is assigned and never read. -/
def Update (e : Entity R) (vp : glm.mat4 R) : Option (Entity R) :=
  let (M, e) := e.GetModelMatrix
  let MVP := vp * M
  match e.matrixBufferCPU.Store MVP.toList sizeof_mat4 with
  | some b => some { e with matrixBufferCPU := b }
  | none => none

/-- The method `Entity::GetWorldPosition`: the returned vector and the
entity afterwards. -/
def GetWorldPosition (e : Entity R) : glm.vec3 R × Entity R :=
  let (t, e) := e.GetModelMatrix
  (t.c3.xyz, e)

end Entity

/-! ## Sequences of operations on one entity -/

/-- Operations a caller performs on an entity. -/
inductive Op (R : Type) where
  | setPos (v : glm.vec3 R)
  | setRot (v : glm.vec3 R)
  | setScale (v : glm.vec3 R)
  | setParentModelMatrix (m : glm.mat4 R)
  | GetModelMatrix
  | GetWorldPosition
  | Update (vp : glm.mat4 R)
  | Draw (pipeline_layout : Handle)
deriving DecidableEq

/-- Whether the operation is a call of `Update`. -/
def Op.isUpdate {R : Type} : Op R → Bool
  | .Update _ => true
  | _ => false

/-- An entity together with the command buffer its draws are recorded into. -/
structure Session (R : Type) where
  entity : Entity R
  cmd : VkCommandBuffer
deriving DecidableEq

namespace Session

variable {R : Type} [Scalar R]

/-- One operation; `none` when a store leaves the buffer. -/
def step (s : Session R) : Op R → Option (Session R)
  | .setPos v => some { s with entity := { s.entity with pos := v } }
  | .setRot v => some { s with entity := { s.entity with rot := v } }
  | .setScale v => some { s with entity := { s.entity with scale := v } }
  | .setParentModelMatrix m => some { s with entity := { s.entity with parentModelMatrix := m } }
  | .GetModelMatrix => some { s with entity := s.entity.GetModelMatrix.2 }
  | .GetWorldPosition => some { s with entity := s.entity.GetWorldPosition.2 }
  | .Update vp => (s.entity.Update vp).map (fun e => { s with entity := e })
  | .Draw pipeline_layout =>
    some { entity := (s.entity.Draw s.cmd pipeline_layout).1
           cmd := (s.entity.Draw s.cmd pipeline_layout).2 }

/-- A sequence of operations, from left to right. -/
def run (s : Session R) : List (Op R) → Option (Session R)
  | [] => some s
  | o :: os => (s.step o).bind (fun s1 => run s1 os)

end Session

/-! ## The matrices named by the specification -/

namespace Spec

variable {R : Type} [ExactScalar R]

/-- Translation matrix `T(pos)`. -/
def T (p : glm.vec3 R) : Matrix (Fin 4) (Fin 4) R :=
  !![1, 0, 0, p.x;
     0, 1, 0, p.y;
     0, 0, 1, p.z;
     0, 0, 0, 1]

/-- Rotation `Rx(a)` about the X axis. -/
def Rx (a : R) : Matrix (Fin 4) (Fin 4) R :=
  !![1, 0, 0, 0;
     0, Scalar.cos a, -Scalar.sin a, 0;
     0, Scalar.sin a, Scalar.cos a, 0;
     0, 0, 0, 1]

/-- Rotation `Ry(a)` about the Y axis. -/
def Ry (a : R) : Matrix (Fin 4) (Fin 4) R :=
  !![Scalar.cos a, 0, Scalar.sin a, 0;
     0, 1, 0, 0;
     -Scalar.sin a, 0, Scalar.cos a, 0;
     0, 0, 0, 1]

/-- Rotation `Rz(a)` about the Z axis. -/
def Rz (a : R) : Matrix (Fin 4) (Fin 4) R :=
  !![Scalar.cos a, -Scalar.sin a, 0, 0;
     Scalar.sin a, Scalar.cos a, 0, 0;
     0, 0, 1, 0;
     0, 0, 0, 1]

/-- Diagonal scale matrix `S(s)`. -/
def S (s : glm.vec3 R) : Matrix (Fin 4) (Fin 4) R :=
  !![s.x, 0, 0, 0;
     0, s.y, 0, 0;
     0, 0, s.z, 0;
     0, 0, 0, 1]

end Spec

/-! ## Predicates and sample data used by the statements -/

/-- The entity's uniform buffer is as the constructor creates it: its size is
that of `uniform_struct` and its memory has one cell for each float. -/
def Entity.Allocated {R : Type} (e : Entity R) : Prop :=
  e.matrixBufferCPU.info.size = sizeof_uniform_struct ∧
    e.matrixBufferCPU.data.length = sizeof_uniform_struct / sizeof_float

instance {R : Type} (e : Entity R) : Decidable e.Allocated := by
  unfold Entity.Allocated
  infer_instance

/-- The instance numbers an indexed draw runs through: `instanceCount`
consecutive numbers from `firstInstance`. -/
def VkCmd.instances : VkCmd → List Nat
  | .DrawIndexed _ instanceCount _ _ firstInstance => List.range' firstInstance instanceCount
  | _ => []

/-- After the operations `pre`, run from `s0`, the uniform buffer holds the
MVP matrix written by the last `Update` call of `pre`: `pre` has a last
`Update vp`, and the buffer's sixteen cells are the entries of `vp * M`, for
`M` the model matrix of the entity at that call. -/
def Session.HoldsLastMVP {R : Type} [Scalar R] (s0 : Session R) (pre : List (Op R)) : Prop :=
  ∃ (pre1 : List (Op R)) (vp : glm.mat4 R) (pre2 : List (Op R)) (s1 s : Session R),
    pre = pre1 ++ Op.Update vp :: pre2 ∧ (∀ o ∈ pre2, o.isUpdate = false) ∧
    s0.run pre1 = some s1 ∧ s0.run pre = some s ∧
    s.entity.matrixBufferCPU.data = (vp * s1.entity.GetModelMatrix.1).toList.map some

/-- The scalar `a` behaves towards `0` and `1` as a finite number does: one
times `a` and `a` plus zero are `a`, zero times `a` is zero. -/
def Scalar.Plain {R : Type} [Scalar R] (a : R) : Prop :=
  1 * a = a ∧ 0 * a = 0 ∧ a + 0 = a ∧ 0 + a = a

instance {R : Type} [Scalar R] [DecidableEq R] (a : R) : Decidable (Scalar.Plain a) := by
  unfold Scalar.Plain
  infer_instance

/-- A cube mesh: 36 indices. -/
def sampleMesh : Mesh :=
  { vertexDataGPU := ⟨11⟩, indexDataGPU := ⟨12⟩, numIndices := 36 }

/-- A texture. -/
def sampleTexture : Texture :=
  { textureGPU := ⟨21⟩ }

/-- A device context. -/
def sampleDemo : Demo :=
  { device := 1, memory_properties := 2, desc_pool := 3, desc_layout := 4, sampler := 5 }

/-- A graphics-API state in which the sample mesh and texture are live. -/
def sampleVk : Vk :=
  { live := [Resource.mesh sampleMesh, Resource.texture sampleTexture], fresh := 100, calls := [] }

/-- A transform over the integers: position `(1, 2, 3)`, a quarter turn about
Y, scale `(2, 2, 2)`, no parent. -/
def sampleTransform : Transform ℤ :=
  { pos := ⟨1, 2, 3⟩
    rot := ⟨0, 1, 0⟩
    scale := ⟨2, 2, 2⟩
    parentModelMatrix := glm.mat4.identity
    modelMatrix := glm.mat4.identity }

/-- The entity constructed from the sample data. -/
def sampleEntity : Entity ℤ :=
  (Entity.new sampleMesh sampleTexture sampleDemo sampleTransform 0 sampleVk).1

/-- The graphics-API state after the sample entity is constructed. -/
def sampleVkAfter : Vk :=
  (Entity.new sampleMesh sampleTexture sampleDemo sampleTransform 0 sampleVk).2

/-- A view-projection matrix over the integers. -/
def sampleVP : glm.mat4 ℤ :=
  ⟨⟨1, 0, 0, 0⟩, ⟨0, 2, 0, 0⟩, ⟨0, 0, 3, 0⟩, ⟨5, 6, 7, 1⟩⟩

/-- The sample transform in `float`, the quarter turn being `1.5707964f`. -/
def floatTransform : Transform F32 :=
  { pos := ⟨F32.ofInt 1, F32.ofInt 2, F32.ofInt 3⟩
    rot := ⟨0, F32.fin 13176795 (-23), 0⟩
    scale := ⟨F32.ofInt 2, F32.ofInt 2, F32.ofInt 2⟩
    parentModelMatrix := glm.mat4.identity
    modelMatrix := glm.mat4.identity }

/-- The entity constructed from the sample data, in `float`. -/
def floatEntity : Entity F32 :=
  (Entity.new sampleMesh sampleTexture sampleDemo floatTransform 0 sampleVk).1

/-- The sample view-projection matrix in `float`. -/
def floatVP : glm.mat4 F32 :=
  sampleVP.map F32.ofInt

/-- A transform with integer entries: the parent moves by `(1, 0, 0)`, the
position is `(2 ^ 24, 0, 0)`, no rotation, scale `(1, 1, 1)`. -/
def roundingTransform : Transform ℤ :=
  { pos := ⟨16777216, 0, 0⟩
    rot := ⟨0, 0, 0⟩
    scale := ⟨1, 1, 1⟩
    parentModelMatrix := ⟨⟨1, 0, 0, 0⟩, ⟨0, 1, 0, 0⟩, ⟨0, 0, 1, 0⟩, ⟨1, 0, 0, 1⟩⟩
    modelMatrix := glm.mat4.identity }

/-- A transform with integer entries: the parent has third column
`(1, 0, 1, 0)` and fourth column `(1, 0, 0, 1)`, the position is
`(2 ^ 24, 0, 1)`, no rotation, scale `(1, 1, 1)`. -/
def driftTransform : Transform ℤ :=
  { pos := ⟨16777216, 0, 1⟩
    rot := ⟨0, 0, 0⟩
    scale := ⟨1, 1, 1⟩
    parentModelMatrix := ⟨⟨1, 0, 0, 0⟩, ⟨0, 1, 0, 0⟩, ⟨1, 0, 1, 0⟩, ⟨1, 0, 0, 1⟩⟩
    modelMatrix := glm.mat4.identity }

/-- A transform in `float` with no parent and an infinite coordinate:
position `(1, +inf, 0)`. -/
def infiniteTransform : Transform F32 :=
  { pos := ⟨F32.ofInt 1, F32.inf false, 0⟩
    rot := ⟨0, 0, 0⟩
    scale := ⟨F32.ofInt 1, F32.ofInt 1, F32.ofInt 1⟩
    parentModelMatrix := glm.mat4.identity
    modelMatrix := glm.mat4.identity }

/-- The entity constructed with the given transform members, the other
arguments being those of the sample entity. -/
def entityOf {R : Type} (t : Transform R) : Entity R :=
  (Entity.new sampleMesh sampleTexture sampleDemo t 0 sampleVk).1

/-! ## Lemmas on the matrix library -/

namespace glm

@[simp]
theorem vec4.add_x {R : Type} [Scalar R] (a b : vec4 R) : (a + b).x = a.x + b.x := rfl

@[simp]
theorem vec4.add_y {R : Type} [Scalar R] (a b : vec4 R) : (a + b).y = a.y + b.y := rfl

@[simp]
theorem vec4.add_z {R : Type} [Scalar R] (a b : vec4 R) : (a + b).z = a.z + b.z := rfl

@[simp]
theorem vec4.add_w {R : Type} [Scalar R] (a b : vec4 R) : (a + b).w = a.w + b.w := rfl

@[simp]
theorem vec4.muls_x {R : Type} [Scalar R] (a : vec4 R) (s : R) :
    (a * s).x = a.x * s := rfl

@[simp]
theorem vec4.muls_y {R : Type} [Scalar R] (a : vec4 R) (s : R) :
    (a * s).y = a.y * s := rfl

@[simp]
theorem vec4.muls_z {R : Type} [Scalar R] (a : vec4 R) (s : R) :
    (a * s).z = a.z * s := rfl

@[simp]
theorem vec4.muls_w {R : Type} [Scalar R] (a : vec4 R) (s : R) :
    (a * s).w = a.w * s := rfl

theorem mat4.mul_def {R : Type} [Scalar R] (m1 m2 : mat4 R) : m1 * m2 = mat4.mul m1 m2 := rfl

theorem toMatrix_ofMatrix {S : Type} (A : Matrix (Fin 4) (Fin 4) S) :
    (mat4.ofMatrix A).toMatrix = A := by
  ext i j
  fin_cases i <;> fin_cases j <;> rfl

theorem eq_ofMatrix_mul {R : Type} [ExactScalar R] {r m : mat4 R} {B : Matrix (Fin 4) (Fin 4) R}
    (h : r = mat4.ofMatrix (m.toMatrix * B)) : r.toMatrix = m.toMatrix * B := by
  rw [h, toMatrix_ofMatrix]

theorem toMatrix_translate {R : Type} [ExactScalar R] (m : mat4 R) (v : vec3 R) :
    (translate m v).toMatrix = m.toMatrix * Spec.T v := by
  apply eq_ofMatrix_mul
  simp [mat4.ofMatrix, mat4.toMatrix, translate, Spec.T, Matrix.mul_apply, Fin.sum_univ_four,
    Matrix.vecHead, Matrix.vecTail, vec4.ext_iff]

theorem inversesqrt_one {R : Type} [ExactScalar R] : Scalar.inversesqrt (1 : R) = 1 :=
  ExactScalar.inversesqrt_one

theorem normalize_unitX {R : Type} [ExactScalar R] :
    normalize (⟨1, 0, 0⟩ : vec3 R) = ⟨1, 0, 0⟩ := by
  simp [normalize, dot, vec3.muls, inversesqrt_one]

theorem normalize_unitY {R : Type} [ExactScalar R] :
    normalize (⟨0, 1, 0⟩ : vec3 R) = ⟨0, 1, 0⟩ := by
  simp [normalize, dot, vec3.muls, inversesqrt_one]

theorem normalize_unitZ {R : Type} [ExactScalar R] :
    normalize (⟨0, 0, 1⟩ : vec3 R) = ⟨0, 0, 1⟩ := by
  simp [normalize, dot, vec3.muls, inversesqrt_one]

theorem toMatrix_rotateX {R : Type} [ExactScalar R] (m : mat4 R) (a : R) :
    (rotate m a ⟨1, 0, 0⟩).toMatrix = m.toMatrix * Spec.Rx a := by
  apply eq_ofMatrix_mul
  simp [mat4.ofMatrix, mat4.toMatrix, rotate, normalize_unitX, vec3.smul, Spec.Rx,
    Matrix.mul_apply, Fin.sum_univ_four, Matrix.vecHead, Matrix.vecTail, vec4.ext_iff]

theorem toMatrix_rotateY {R : Type} [ExactScalar R] (m : mat4 R) (a : R) :
    (rotate m a ⟨0, 1, 0⟩).toMatrix = m.toMatrix * Spec.Ry a := by
  apply eq_ofMatrix_mul
  simp [mat4.ofMatrix, mat4.toMatrix, rotate, normalize_unitY, vec3.smul, Spec.Ry,
    Matrix.mul_apply, Fin.sum_univ_four, Matrix.vecHead, Matrix.vecTail, vec4.ext_iff]

theorem toMatrix_rotateZ {R : Type} [ExactScalar R] (m : mat4 R) (a : R) :
    (rotate m a ⟨0, 0, 1⟩).toMatrix = m.toMatrix * Spec.Rz a := by
  apply eq_ofMatrix_mul
  simp [mat4.ofMatrix, mat4.toMatrix, rotate, normalize_unitZ, vec3.smul, Spec.Rz,
    Matrix.mul_apply, Fin.sum_univ_four, Matrix.vecHead, Matrix.vecTail, vec4.ext_iff]

theorem toMatrix_scale {R : Type} [ExactScalar R] (m : mat4 R) (v : vec3 R) :
    (scale m v).toMatrix = m.toMatrix * Spec.S v := by
  apply eq_ofMatrix_mul
  simp [mat4.ofMatrix, mat4.toMatrix, scale, Spec.S, Matrix.mul_apply, Fin.sum_univ_four,
    Matrix.vecHead, Matrix.vecTail, vec4.ext_iff]

theorem toMatrix_mul {R : Type} [ExactScalar R] (m1 m2 : mat4 R) :
    (m1 * m2).toMatrix = m1.toMatrix * m2.toMatrix := by
  ext i j
  rw [mat4.mul_def, Matrix.mul_apply, Fin.sum_univ_four]
  fin_cases i <;> fin_cases j <;> rfl

theorem toMatrix_identity {R : Type} [Scalar R] : (mat4.identity : mat4 R).toMatrix = 1 := by
  ext i j
  fin_cases i <;> fin_cases j <;> rfl

end glm

/-! ## Transform composition -/

namespace Entity

theorem GetModelMatrix_c3 {R : Type} [Scalar R] (e : Entity R) :
    e.GetModelMatrix.1.c3 =
      e.parentModelMatrix.c0 * e.pos.x + e.parentModelMatrix.c1 * e.pos.y +
        e.parentModelMatrix.c2 * e.pos.z + e.parentModelMatrix.c3 := rfl

theorem GetWorldPosition_fst {R : Type} [Scalar R] (e : Entity R) :
    e.GetWorldPosition.1 = e.GetModelMatrix.1.c3.xyz := rfl

theorem toMatrix_GetModelMatrix {R : Type} [ExactScalar R] (e : Entity R) :
    e.GetModelMatrix.1.toMatrix =
      e.parentModelMatrix.toMatrix * Spec.T e.pos * Spec.Ry e.rot.y * Spec.Rx e.rot.x *
        Spec.Rz e.rot.z * Spec.S e.scale := by
  simp only [GetModelMatrix, glm.toMatrix_scale, glm.toMatrix_rotateZ, glm.toMatrix_rotateX,
    glm.toMatrix_rotateY, glm.toMatrix_translate]

theorem GetWorldPosition_exact {R : Type} [ExactScalar R] (e : Entity R) :
    e.GetWorldPosition.1.x =
        Matrix.mulVec e.parentModelMatrix.toMatrix ![e.pos.x, e.pos.y, e.pos.z, 1] 0 ∧
      e.GetWorldPosition.1.y =
        Matrix.mulVec e.parentModelMatrix.toMatrix ![e.pos.x, e.pos.y, e.pos.z, 1] 1 ∧
      e.GetWorldPosition.1.z =
        Matrix.mulVec e.parentModelMatrix.toMatrix ![e.pos.x, e.pos.y, e.pos.z, 1] 2 := by
  simp only [Matrix.mulVec, Matrix.dotProduct, Fin.sum_univ_four, GetWorldPosition_fst,
    GetModelMatrix_c3]
  simp [glm.vec4.xyz, glm.mat4.toMatrix, Matrix.vecHead, Matrix.vecTail]

theorem GetWorldPosition_identity {R : Type} [Scalar R] (e : Entity R)
    (hP : e.parentModelMatrix = glm.mat4.identity) (h0 : Scalar.Plain (0 : R))
    (hx : Scalar.Plain e.pos.x) (hy : Scalar.Plain e.pos.y) (hz : Scalar.Plain e.pos.z) :
    e.GetWorldPosition.1 = e.pos := by
  obtain ⟨_, _, h00, _⟩ := h0
  obtain ⟨hx1, hx0, hxa, _⟩ := hx
  obtain ⟨hy1, hy0, hya, hyz⟩ := hy
  obtain ⟨hz1, hz0, hza, hzz⟩ := hz
  rw [GetWorldPosition_fst, GetModelMatrix_c3, hP]
  simp only [glm.vec4.xyz, glm.mat4.identity, glm.vec4.add_x, glm.vec4.add_y, glm.vec4.add_z,
    glm.vec4.muls_x, glm.vec4.muls_y, glm.vec4.muls_z, hx1, hx0, hxa, hy1, hy0, hya, hyz,
    hz1, hz0, hza, hzz, h00]

/-- C1, as amended: `GetModelMatrix` returns what `glm::translate` by `pos`,
`glm::rotate` by `rot.y` about Y, by `rot.x` about X, by `rot.z` about Z and
`glm::scale` by `scale` build from the parent matrix, applied in that order,
each to the result of the one before, in the arithmetic of the scalars
(`float` in the program).  When the arithmetic does not round, this matrix
is the product `P * T(pos) * Ry(rot.y) * Rx(rot.x) * Rz(rot.z) * S(scale)`. -/
theorem GetModelMatrix_composition {R : Type} [Scalar R] (e : Entity R)
    {K : Type} [ExactScalar K] (eK : Entity K) :
    e.GetModelMatrix.1 =
      glm.scale
        (glm.rotate
          (glm.rotate
            (glm.rotate (glm.translate e.parentModelMatrix e.pos) e.rot.y ⟨0, 1, 0⟩)
            e.rot.x ⟨1, 0, 0⟩)
          e.rot.z ⟨0, 0, 1⟩)
        e.scale ∧
    eK.GetModelMatrix.1.toMatrix =
      eK.parentModelMatrix.toMatrix * Spec.T eK.pos * Spec.Ry eK.rot.y * Spec.Rx eK.rot.x *
        Spec.Rz eK.rot.z * Spec.S eK.scale :=
  ⟨rfl, toMatrix_GetModelMatrix eK⟩

/-- C3, as amended: `GetWorldPosition` returns the first three entries of the
fourth column of the matrix `GetModelMatrix` returns.  They are the sums
`P[0] * pos.x + P[1] * pos.y + P[2] * pos.z + P[3]`, added from left to right
in the arithmetic of the scalars, and do not change with the rotation or the
scale.  With the identity as parent matrix they are `pos` when the
coordinates of `pos` are finite (`0` and `1` act on them as on numbers).
When the arithmetic does not round they are the first three entries of
`P * (pos.x, pos.y, pos.z, 1)`. -/
theorem GetWorldPosition_translation_column {R : Type} [Scalar R] (e : Entity R)
    {K : Type} [ExactScalar K] (eK : Entity K) :
    (e.GetWorldPosition.1.x = e.GetModelMatrix.1.toMatrix 0 3 ∧
      e.GetWorldPosition.1.y = e.GetModelMatrix.1.toMatrix 1 3 ∧
      e.GetWorldPosition.1.z = e.GetModelMatrix.1.toMatrix 2 3) ∧
    (e.GetWorldPosition.1.x =
        e.parentModelMatrix.c0.x * e.pos.x + e.parentModelMatrix.c1.x * e.pos.y +
          e.parentModelMatrix.c2.x * e.pos.z + e.parentModelMatrix.c3.x ∧
      e.GetWorldPosition.1.y =
        e.parentModelMatrix.c0.y * e.pos.x + e.parentModelMatrix.c1.y * e.pos.y +
          e.parentModelMatrix.c2.y * e.pos.z + e.parentModelMatrix.c3.y ∧
      e.GetWorldPosition.1.z =
        e.parentModelMatrix.c0.z * e.pos.x + e.parentModelMatrix.c1.z * e.pos.y +
          e.parentModelMatrix.c2.z * e.pos.z + e.parentModelMatrix.c3.z) ∧
    (∀ rot s : glm.vec3 R,
      ({ e with rot := rot, scale := s } : Entity R).GetWorldPosition.1 =
        e.GetWorldPosition.1) ∧
    (e.parentModelMatrix = glm.mat4.identity → Scalar.Plain (0 : R) →
      Scalar.Plain e.pos.x → Scalar.Plain e.pos.y → Scalar.Plain e.pos.z →
      e.GetWorldPosition.1 = e.pos) ∧
    (eK.GetWorldPosition.1.x =
        Matrix.mulVec eK.parentModelMatrix.toMatrix ![eK.pos.x, eK.pos.y, eK.pos.z, 1] 0 ∧
      eK.GetWorldPosition.1.y =
        Matrix.mulVec eK.parentModelMatrix.toMatrix ![eK.pos.x, eK.pos.y, eK.pos.z, 1] 1 ∧
      eK.GetWorldPosition.1.z =
        Matrix.mulVec eK.parentModelMatrix.toMatrix ![eK.pos.x, eK.pos.y, eK.pos.z, 1] 2) :=
  ⟨⟨rfl, rfl, rfl⟩, ⟨rfl, rfl, rfl⟩, fun _ _ => rfl, GetWorldPosition_identity e,
    GetWorldPosition_exact eK⟩

end Entity

/-! ## The uniform buffer -/

theorem uniform_struct_cells : sizeof_uniform_struct / sizeof_float = 16 := rfl

namespace glm

theorem mat4.length_toList {R : Type} (M : mat4 R) : M.toList.length = 16 := rfl

theorem mat4.toList_getElem? {R : Type} (M : mat4 R) (i j : Fin 4) :
    (M.toList.map some)[4 * j.val + i.val]? = some (some (M.toMatrix i j)) := by
  fin_cases i <;> fin_cases j <;> rfl

end glm

theorem BufferCPU.Store_mat4 {R : Type} (b : BufferCPU R) (M : glm.mat4 R)
    (hs : b.info.size = sizeof_uniform_struct)
    (hl : b.data.length = sizeof_uniform_struct / sizeof_float) :
    b.Store M.toList sizeof_mat4 = some { b with data := M.toList.map some } := by
  have h16 : b.data.length = 16 := hl
  have hn : sizeof_mat4 / sizeof_float = 16 := rfl
  have hc : sizeof_mat4 ≤ b.info.size ∧ sizeof_mat4 / sizeof_float ≤ M.toList.length ∧
      sizeof_mat4 / sizeof_float ≤ b.data.length :=
    ⟨le_of_eq hs.symm, le_of_eq (hn.trans M.length_toList.symm), le_of_eq (hn.trans h16.symm)⟩
  simp only [BufferCPU.Store]
  rw [if_pos hc, hn, List.drop_eq_nil_of_le (le_of_eq h16), List.append_nil,
    List.take_of_length_le (le_of_eq M.length_toList)]

theorem Entity.new_fst {R : Type} (m : Mesh) (t : Texture) (demo : Demo) (members : Transform R)
    (ds : Handle) (vk : Vk) :
    (Entity.new m t demo members ds vk).1 =
      { toTransform := members
        mesh := m
        texture := t
        matrixBufferCPU :=
          { buffer := vk.fresh
            info := ⟨.VK_STRUCTURE_TYPE_BUFFER_CREATE_INFO, .VK_BUFFER_USAGE_UNIFORM_BUFFER_BIT,
              sizeof_uniform_struct⟩
            data := List.replicate 16 none }
        descriptor_set := vk.fresh + 1 } := rfl

namespace Entity

theorem new_allocated {R : Type} (m : Mesh) (t : Texture) (demo : Demo) (members : Transform R)
    (ds : Handle) (vk : Vk) : (Entity.new m t demo members ds vk).1.Allocated := by
  rw [new_fst]
  refine And.intro rfl ?_
  show (List.replicate 16 (none : Option R)).length = sizeof_uniform_struct / sizeof_float
  rw [List.length_replicate]
  rfl

theorem Update_of_allocated {R : Type} [Scalar R] (e : Entity R) (vp : glm.mat4 R)
    (h : e.Allocated) :
    e.Update vp = some
      { e with
        modelMatrix := e.GetModelMatrix.1
        matrixBufferCPU :=
          { e.matrixBufferCPU with data := (vp * e.GetModelMatrix.1).toList.map some } } := by
  have hst := BufferCPU.Store_mat4 e.GetModelMatrix.2.matrixBufferCPU
    (vp * e.GetModelMatrix.1) h.1 h.2
  unfold Update
  simp only [hst]
  rfl

/-- C2: for every view-projection matrix `vp` and every entity whose buffer
is as the constructor creates it, `Update vp` returns, and afterwards the
uniform buffer has sixteen cells, cell `4 * j + i` (column `j`, row `i`,
counted from the start of the buffer) holding entry `(i, j)` of `vp * M`,
where `M` is the matrix `GetModelMatrix` returns for the entity's state at
the call and the product is that of the scalars' own arithmetic: row `i` of
`vp` times column `j` of `M`, view-projection on the left, the four products
added from left to right. -/
theorem Update_stores_mvp {R : Type} [Scalar R] (e : Entity R) (vp : glm.mat4 R)
    (h : e.Allocated) :
    ∃ e1 : Entity R, e.Update vp = some e1 ∧
      e1.matrixBufferCPU.data.length = 16 ∧
      (∀ i j : Fin 4, e1.matrixBufferCPU.data[4 * j.val + i.val]? =
        some (some ((vp * e.GetModelMatrix.1).toMatrix i j))) ∧
      ∀ i j : Fin 4, (vp * e.GetModelMatrix.1).toMatrix i j =
        vp.toMatrix i 0 * e.GetModelMatrix.1.toMatrix 0 j +
          vp.toMatrix i 1 * e.GetModelMatrix.1.toMatrix 1 j +
          vp.toMatrix i 2 * e.GetModelMatrix.1.toMatrix 2 j +
          vp.toMatrix i 3 * e.GetModelMatrix.1.toMatrix 3 j := by
  refine ⟨_, Update_of_allocated e vp h, ?_, ?_, ?_⟩
  · simp [glm.mat4.length_toList]
  · intro i j
    exact glm.mat4.toList_getElem? _ i j
  · intro i j
    fin_cases i <;> fin_cases j <;> rfl

theorem new_calls {R : Type} (m : Mesh) (t : Texture) (demo : Demo)
    (members : Transform R) (ds : Handle) (vk : Vk) :
    (Entity.new m t demo members ds vk).2.calls = vk.calls ++
      [VkCall.AllocateDescriptorSets demo.device
          { sType := .VK_STRUCTURE_TYPE_DESCRIPTOR_SET_ALLOCATE_INFO
            descriptorPool := demo.desc_pool
            descriptorSetCount := 1
            pSetLayouts := [demo.desc_layout] }
          [(Entity.new m t demo members ds vk).1.descriptor_set],
        VkCall.UpdateDescriptorSets demo.device
          [{ sType := .VK_STRUCTURE_TYPE_WRITE_DESCRIPTOR_SET
             dstSet := (Entity.new m t demo members ds vk).1.descriptor_set
             dstBinding := 0
             dstArrayElement := 0
             descriptorCount := 1
             descriptorType := .VK_DESCRIPTOR_TYPE_UNIFORM_BUFFER
             pImageInfo := none
             pBufferInfo := some
               { buffer := (Entity.new m t demo members ds vk).1.matrixBufferCPU.buffer
                 offset := 0
                 range := sizeof_mat4 } },
           { sType := .VK_STRUCTURE_TYPE_WRITE_DESCRIPTOR_SET
             dstSet := (Entity.new m t demo members ds vk).1.descriptor_set
             dstBinding := 1
             dstArrayElement := 0
             descriptorCount := 1
             descriptorType := .VK_DESCRIPTOR_TYPE_COMBINED_IMAGE_SAMPLER
             pImageInfo := some
               { sampler := demo.sampler
                 imageView := t.textureGPU.imageView
                 imageLayout := .VK_IMAGE_LAYOUT_SHADER_READ_ONLY_OPTIMAL }
             pBufferInfo := none }]
          0] := by
  simp [Entity.new, CreateDescriptorSet, vkAllocateDescriptorSets, vkUpdateDescriptorSets,
    BufferCPU.new, sizeof_uniform_struct, List.range_succ]

/-- C8: the three sizes of the uniform data agree.  For every constructed
entity the buffer is created with 64 bytes, the binding-0 descriptor written
by `CreateDescriptorSet` has range 64, and `Update` stores 64 bytes, the
size of one matrix of sixteen 4-byte floats; the store stays inside the
buffer (`Update` returns) and leaves no cell of the buffer unwritten. -/
theorem uniform_sizes_agree {R : Type} [Scalar R] (m : Mesh) (t : Texture) (demo : Demo)
    (members : Transform R) (ds : Handle) (vk : Vk) (vp : glm.mat4 R) :
    sizeof_mat4 = 4 * 4 * 4 ∧
    (Entity.new m t demo members ds vk).1.matrixBufferCPU.info.size = 64 ∧
    (∃ (alloc : VkCall) (w0 w1 : VkWriteDescriptorSet) (bi : VkDescriptorBufferInfo),
      (Entity.new m t demo members ds vk).2.calls =
        vk.calls ++ [alloc, VkCall.UpdateDescriptorSets demo.device [w0, w1] 0] ∧
      w0.dstBinding = 0 ∧ w0.pBufferInfo = some bi ∧ bi.range = 64) ∧
    (Entity.new m t demo members ds vk).1.Update vp =
      Option.map
        (fun b => { (Entity.new m t demo members ds vk).1.GetModelMatrix.2 with
          matrixBufferCPU := b })
        ((Entity.new m t demo members ds vk).1.GetModelMatrix.2.matrixBufferCPU.Store
          (vp * (Entity.new m t demo members ds vk).1.GetModelMatrix.1).toList 64) ∧
    ∃ e1 : Entity R, (Entity.new m t demo members ds vk).1.Update vp = some e1 ∧
      e1.matrixBufferCPU.data.length * sizeof_float = 64 ∧
      ∀ c ∈ e1.matrixBufferCPU.data, c ≠ none := by
  refine ⟨rfl, rfl, ⟨_, _, _, _, new_calls m t demo members ds vk, rfl, rfl, rfl⟩, ?_, ?_⟩
  · show Update _ vp = _
    unfold Update
    cases h : BufferCPU.Store (GetModelMatrix _).2.matrixBufferCPU
      (vp * (GetModelMatrix _).1).toList 64 with
    | none => simp [show sizeof_mat4 = 64 from rfl, h]
    | some b => simp [show sizeof_mat4 = 64 from rfl, h]
  · refine ⟨_, Update_of_allocated _ vp (new_allocated m t demo members ds vk), ?_, ?_⟩
    · simp [glm.mat4.length_toList, sizeof_float]
    · intro c hc
      simp only [List.mem_map] at hc
      obtain ⟨x, _, rfl⟩ := hc
      exact Option.some_ne_none x

/-- C9: `GetModelMatrix` changes the entity only by overwriting the cached
`modelMatrix` with the matrix it returns; a second call returns the same
matrix and leaves the same state; `GetWorldPosition` has the same effect on
the entity; and `Update`, which returns when the buffer is as constructed,
changes no member other than that cache and the uniform buffer. -/
theorem getters_write_only_cache {R : Type} [Scalar R] (e : Entity R) (vp : glm.mat4 R)
    (h : e.Allocated) :
    e.GetModelMatrix.2 = { e with modelMatrix := e.GetModelMatrix.1 } ∧
    e.GetModelMatrix.2.GetModelMatrix = e.GetModelMatrix ∧
    e.GetWorldPosition.2 = { e with modelMatrix := e.GetModelMatrix.1 } ∧
    ∃ e1 : Entity R, e.Update vp = some e1 ∧
      e1 = { e with modelMatrix := e.GetModelMatrix.1, matrixBufferCPU := e1.matrixBufferCPU } ∧
      e1.toTransform = { e.toTransform with modelMatrix := e.GetModelMatrix.1 } :=
  ⟨rfl, rfl, rfl, _, Update_of_allocated e vp h, rfl, rfl⟩

/-- C5: for every entity, command buffer and pipeline layout, `Draw` records
exactly four commands after those already in the command buffer: a bind of
the entity's one descriptor set at set 0 of the graphics bind point with the
given layout, a bind of the mesh's vertex buffer as the one buffer at binding
0 with offset 0, a bind of the mesh's index buffer with offset 0 and 16-bit
indices, and an indexed draw of `numIndices` indices and one instance. -/
theorem Draw_records_four_commands {R : Type} (e : Entity R) (cmd : VkCommandBuffer)
    (pipeline_layout : Handle) :
    (e.Draw cmd pipeline_layout).2.length = cmd.length + 4 ∧
    ∃ (firstIndex : Nat) (vertexOffset : Int) (firstInstance : Nat),
      (e.Draw cmd pipeline_layout).2 = cmd ++
        [VkCmd.BindDescriptorSets .VK_PIPELINE_BIND_POINT_GRAPHICS pipeline_layout 0
            [e.descriptor_set] [],
          VkCmd.BindVertexBuffers 0 [e.mesh.vertexDataGPU.buffer] [0],
          VkCmd.BindIndexBuffer e.mesh.indexDataGPU.buffer 0 .VK_INDEX_TYPE_UINT16,
          VkCmd.DrawIndexed e.mesh.numIndices 1 firstIndex vertexOffset firstInstance] := by
  refine ⟨?_, 0, 0, 1, ?_⟩ <;> simp [Draw]

/-- C10: the indexed draw that `Draw` records last has first index 0, vertex
offset 0 and first instance 1, so that the one instance it draws is instance
number 1; and `Draw` returns the entity as it was, uniform buffer included. -/
theorem Draw_first_instance_one {R : Type} (e : Entity R) (cmd : VkCommandBuffer)
    (pipeline_layout : Handle) :
    (e.Draw cmd pipeline_layout).2.getLast? =
      some (VkCmd.DrawIndexed e.mesh.numIndices 1 0 0 1) ∧
    (VkCmd.DrawIndexed e.mesh.numIndices 1 0 0 1).instances = [1] ∧
    (e.Draw cmd pipeline_layout).1 = e ∧
    (e.Draw cmd pipeline_layout).1.matrixBufferCPU.data = e.matrixBufferCPU.data := by
  refine ⟨?_, rfl, rfl, rfl⟩
  simp [Draw]

/-- C6: constructing an entity makes two descriptor-set calls.  The first
allocates one descriptor set from the context's pool with the context's
layout, and the entity keeps it.  The second writes two descriptors into that
set: at binding 0 one uniform-buffer descriptor for the entity's own matrix
buffer, offset 0, range the size of one 4x4 float matrix; at binding 1 one
combined-image-sampler descriptor for the texture's image view with the
context's sampler in the shader-read-only layout. -/
theorem constructor_descriptor_set {R : Type} (m : Mesh) (t : Texture) (demo : Demo)
    (members : Transform R) (ds : Handle) (vk : Vk) :
    (Entity.new m t demo members ds vk).1.descriptor_set = vk.fresh + 1 ∧
    (Entity.new m t demo members ds vk).1.matrixBufferCPU.buffer = vk.fresh ∧
    (Entity.new m t demo members ds vk).2.live =
      Resource.descriptorSet (vk.fresh + 1) :: Resource.buffer vk.fresh :: vk.live ∧
    (Entity.new m t demo members ds vk).2.calls = vk.calls ++
      [VkCall.AllocateDescriptorSets demo.device
          { sType := .VK_STRUCTURE_TYPE_DESCRIPTOR_SET_ALLOCATE_INFO
            descriptorPool := demo.desc_pool
            descriptorSetCount := 1
            pSetLayouts := [demo.desc_layout] }
          [(Entity.new m t demo members ds vk).1.descriptor_set],
        VkCall.UpdateDescriptorSets demo.device
          [{ sType := .VK_STRUCTURE_TYPE_WRITE_DESCRIPTOR_SET
             dstSet := (Entity.new m t demo members ds vk).1.descriptor_set
             dstBinding := 0
             dstArrayElement := 0
             descriptorCount := 1
             descriptorType := .VK_DESCRIPTOR_TYPE_UNIFORM_BUFFER
             pImageInfo := none
             pBufferInfo := some
               { buffer := (Entity.new m t demo members ds vk).1.matrixBufferCPU.buffer
                 offset := 0
                 range := sizeof_mat4 } },
           { sType := .VK_STRUCTURE_TYPE_WRITE_DESCRIPTOR_SET
             dstSet := (Entity.new m t demo members ds vk).1.descriptor_set
             dstBinding := 1
             dstArrayElement := 0
             descriptorCount := 1
             descriptorType := .VK_DESCRIPTOR_TYPE_COMBINED_IMAGE_SAMPLER
             pImageInfo := some
               { sampler := demo.sampler
                 imageView := t.textureGPU.imageView
                 imageLayout := .VK_IMAGE_LAYOUT_SHADER_READ_ONLY_OPTIMAL }
             pBufferInfo := none }]
          0] ∧
    sizeof_mat4 = 64 :=
  ⟨rfl, rfl, rfl, new_calls m t demo members ds vk, rfl⟩

end Entity

/-! ## Lifetime of the resources -/

namespace Entity

theorem delete_live {R : Type} (e : Entity R) (vk : Vk) :
    (e.delete vk).live = vk.live.erase (Resource.buffer e.matrixBufferCPU.buffer) := rfl

theorem new_live {R : Type} (m : Mesh) (t : Texture) (demo : Demo) (members : Transform R)
    (ds : Handle) (vk : Vk) :
    (Entity.new m t demo members ds vk).2.live =
      Resource.descriptorSet (Entity.new m t demo members ds vk).1.descriptor_set ::
        Resource.buffer (Entity.new m t demo members ds vk).1.matrixBufferCPU.buffer ::
          vk.live := rfl

/-- C7: over the list of live resources, constructing an entity adds one
buffer, the entity's uniform buffer, and one descriptor set of the pool;
destroying the entity removes that buffer and nothing else, in whatever
state it is destroyed; right after construction this leaves what was live
before together with the descriptor set, so the mesh, the texture and the
descriptor set are still live. -/
theorem destructor_releases_only_uniform_buffer {R : Type} (m : Mesh) (t : Texture)
    (demo : Demo) (members : Transform R) (ds : Handle) (vk : Vk)
    (hm : Resource.mesh m ∈ vk.live) (ht : Resource.texture t ∈ vk.live) :
    (Entity.new m t demo members ds vk).2.live =
      Resource.descriptorSet (Entity.new m t demo members ds vk).1.descriptor_set ::
        Resource.buffer (Entity.new m t demo members ds vk).1.matrixBufferCPU.buffer ::
          vk.live ∧
    (∀ vk2 : Vk,
      ((Entity.new m t demo members ds vk).1.delete vk2).live =
        vk2.live.erase
          (Resource.buffer (Entity.new m t demo members ds vk).1.matrixBufferCPU.buffer) ∧
      ((Entity.new m t demo members ds vk).1.delete vk2).calls = vk2.calls ∧
      ∀ r : Resource,
        r ≠ Resource.buffer (Entity.new m t demo members ds vk).1.matrixBufferCPU.buffer →
        (r ∈ ((Entity.new m t demo members ds vk).1.delete vk2).live ↔ r ∈ vk2.live)) ∧
    ((Entity.new m t demo members ds vk).1.delete (Entity.new m t demo members ds vk).2).live =
      Resource.descriptorSet (Entity.new m t demo members ds vk).1.descriptor_set :: vk.live ∧
    Resource.mesh m ∈
      ((Entity.new m t demo members ds vk).1.delete (Entity.new m t demo members ds vk).2).live ∧
    Resource.texture t ∈
      ((Entity.new m t demo members ds vk).1.delete (Entity.new m t demo members ds vk).2).live ∧
    Resource.descriptorSet (Entity.new m t demo members ds vk).1.descriptor_set ∈
      ((Entity.new m t demo members ds vk).1.delete
        (Entity.new m t demo members ds vk).2).live := by
  have h3 : ((Entity.new m t demo members ds vk).1.delete
      (Entity.new m t demo members ds vk).2).live =
      Resource.descriptorSet (Entity.new m t demo members ds vk).1.descriptor_set ::
        vk.live := by
    rw [delete_live, new_live]
    simp [List.erase_cons]
  refine ⟨new_live m t demo members ds vk, ?_, h3, ?_, ?_, ?_⟩
  · intro vk2
    refine ⟨rfl, rfl, ?_⟩
    intro r hr
    rw [delete_live]
    exact List.mem_erase_of_ne hr
  · rw [h3]
    exact List.mem_cons_of_mem _ hm
  · rw [h3]
    exact List.mem_cons_of_mem _ ht
  · rw [h3]
    exact List.mem_cons_self _ _

end Entity

/-! ## Sequences of operations -/

namespace Session

theorem run_append {R : Type} [Scalar R] (s : Session R) (a b : List (Op R)) :
    s.run (a ++ b) = (s.run a).bind (fun s1 => s1.run b) := by
  induction a generalizing s with
  | nil => rfl
  | cons o os ih =>
    simp only [List.cons_append, run]
    cases s.step o with
    | none => rfl
    | some s1 => exact ih s1

theorem step_allocated {R : Type} [Scalar R] (s : Session R) (o : Op R)
    (h : s.entity.Allocated) : ∃ s1, s.step o = some s1 ∧ s1.entity.Allocated := by
  cases o with
  | Update vp =>
    have hstep : s.step (Op.Update vp) = some
        { s with entity :=
          { s.entity with
            modelMatrix := s.entity.GetModelMatrix.1
            matrixBufferCPU :=
              { s.entity.matrixBufferCPU with
                data := (vp * s.entity.GetModelMatrix.1).toList.map some } } } := by
      simp only [step, Entity.Update_of_allocated s.entity vp h, Option.map_some']
    exact ⟨_, hstep, h.1, uniform_struct_cells.symm ▸ rfl⟩
  | _ => exact ⟨_, rfl, h⟩

theorem run_allocated {R : Type} [Scalar R] (ops : List (Op R)) (s : Session R)
    (h : s.entity.Allocated) : ∃ s1, s.run ops = some s1 ∧ s1.entity.Allocated := by
  induction ops generalizing s with
  | nil => exact ⟨s, rfl, h⟩
  | cons o os ih =>
    obtain ⟨s1, hs1, h1⟩ := step_allocated s o h
    obtain ⟨s2, hs2, h2⟩ := ih s1 h1
    exact ⟨s2, by simp [run, hs1, hs2], h2⟩

theorem step_buffer {R : Type} [Scalar R] (s s1 : Session R) (o : Op R)
    (hno : o.isUpdate = false) (hs : s.step o = some s1) :
    s1.entity.matrixBufferCPU = s.entity.matrixBufferCPU := by
  cases o with
  | Update vp => simp [Op.isUpdate] at hno
  | _ =>
    simp only [step, Option.some.injEq] at hs
    subst hs
    rfl

theorem run_buffer {R : Type} [Scalar R] (ops : List (Op R)) (s s1 : Session R)
    (hno : ∀ o ∈ ops, o.isUpdate = false) (hs : s.run ops = some s1) :
    s1.entity.matrixBufferCPU = s.entity.matrixBufferCPU := by
  induction ops generalizing s with
  | nil =>
    simp only [run, Option.some.injEq] at hs
    subst hs
    rfl
  | cons o os ih =>
    simp only [run] at hs
    cases hstep : s.step o with
    | none => simp [hstep] at hs
    | some s2 =>
      rw [hstep] at hs
      have h2 := ih s2 (fun o1 ho1 => hno o1 (List.mem_cons_of_mem _ ho1)) hs
      rw [h2]
      exact step_buffer s s2 o (hno o (List.mem_cons_self _ _)) hstep

theorem exists_last_update {R : Type} (pre : List (Op R))
    (h : ∃ vp, Op.Update vp ∈ pre) :
    ∃ (pre1 : List (Op R)) (vp : glm.mat4 R) (pre2 : List (Op R)),
      pre = pre1 ++ Op.Update vp :: pre2 ∧ ∀ o ∈ pre2, o.isUpdate = false := by
  induction pre with
  | nil =>
    obtain ⟨vp, hvp⟩ := h
    exact absurd hvp (List.not_mem_nil _)
  | cons o os ih =>
    by_cases hos : ∃ vp, Op.Update vp ∈ os
    · obtain ⟨pre1, vp, pre2, hpre, hno⟩ := ih hos
      exact ⟨o :: pre1, vp, pre2, by rw [hpre]; rfl, hno⟩
    · have hno : ∀ o1 ∈ os, o1.isUpdate = false := by
        intro o1 ho1
        cases o1 with
        | Update vp => exact absurd ⟨vp, ho1⟩ hos
        | _ => rfl
      obtain ⟨vp, hvp⟩ := h
      rcases List.mem_cons.mp hvp with hhead | htail
      · exact ⟨[], vp, os, by rw [← hhead]; rfl, hno⟩
      · exact absurd ⟨vp, htail⟩ hos

theorem holdsLastMVP_of_update {R : Type} [Scalar R] (s0 : Session R) (pre : List (Op R))
    (h0 : s0.entity.Allocated) (h : ∃ vp, Op.Update vp ∈ pre) : s0.HoldsLastMVP pre := by
  obtain ⟨pre1, vp, pre2, hpre, hno⟩ := exists_last_update pre h
  obtain ⟨s1, hs1, h1⟩ := run_allocated pre1 s0 h0
  obtain ⟨s, hs, _⟩ := run_allocated pre s0 h0
  refine ⟨pre1, vp, pre2, s1, s, hpre, hno, hs1, hs, ?_⟩
  have hstep : s1.step (Op.Update vp) = some
      { s1 with entity :=
        { s1.entity with
          modelMatrix := s1.entity.GetModelMatrix.1
          matrixBufferCPU :=
            { s1.entity.matrixBufferCPU with
              data := (vp * s1.entity.GetModelMatrix.1).toList.map some } } } := by
    simp only [step, Entity.Update_of_allocated s1.entity vp h1, Option.map_some']
  rw [hpre, run_append, hs1] at hs
  simp only [Option.some_bind, run, hstep] at hs
  rw [run_buffer pre2 _ s hno hs]

end Session

/-- On a constructed entity, whenever `Draw` is called after at least one
`Update`, the uniform buffer holds the sixteen entries of `vp * M` written by
the last `Update vp` before it, `M` being the model matrix at that call; the
`Draw` leaves the buffer as it is, and the whole sequence runs to its end. -/
theorem draw_after_update_sees_last_mvp {R : Type} [Scalar R] (m : Mesh) (t : Texture)
    (demo : Demo) (members : Transform R) (ds : Handle) (vk : Vk) (cmd : VkCommandBuffer)
    (pre post : List (Op R)) (pipeline_layout : Handle)
    (hupd : ∃ vp, Op.Update vp ∈ pre) :
    Session.HoldsLastMVP ⟨(Entity.new m t demo members ds vk).1, cmd⟩ pre ∧
    ∃ s1 s2 s3 : Session R,
      Session.run ⟨(Entity.new m t demo members ds vk).1, cmd⟩ pre = some s1 ∧
      s1.step (Op.Draw pipeline_layout) = some s2 ∧
      s2.entity.matrixBufferCPU = s1.entity.matrixBufferCPU ∧
      Session.run ⟨(Entity.new m t demo members ds vk).1, cmd⟩
        (pre ++ Op.Draw pipeline_layout :: post) = some s3 := by
  have h0 := Entity.new_allocated m t demo members ds vk
  refine ⟨Session.holdsLastMVP_of_update _ pre h0 hupd, ?_⟩
  obtain ⟨s1, hs1, _⟩ := Session.run_allocated pre
    (⟨(Entity.new m t demo members ds vk).1, cmd⟩ : Session R) h0
  obtain ⟨s3, hs3, _⟩ := Session.run_allocated (pre ++ Op.Draw pipeline_layout :: post)
    (⟨(Entity.new m t demo members ds vk).1, cmd⟩ : Session R) h0
  exact ⟨s1, _, s3, hs1, rfl, rfl, hs3⟩

/-! ## The statements at the sample entities -/

/-- C4: the failing input.  The sample entity is constructed and `Draw` is
called with no `Update` before it.  The constructor leaves the uniform buffer
as `new BufferCPU` made it, with no `Store`: none of its sixteen cells was
written, so it holds the entries of no matrix; `Draw` records its four
commands all the same and leaves the buffer so.  Had `Update` been called
first, the buffer would hold the matrix `Update` computed. -/
theorem draw_before_update_buffer_unwritten :
    sampleEntity.matrixBufferCPU =
      (BufferCPU.new sampleDemo.device sampleDemo.memory_properties
        ⟨.VK_STRUCTURE_TYPE_BUFFER_CREATE_INFO, .VK_BUFFER_USAGE_UNIFORM_BUFFER_BIT,
          sizeof_uniform_struct⟩ sampleVk).1 ∧
    sampleEntity.matrixBufferCPU.data = List.replicate 16 none ∧
    (∀ M : glm.mat4 ℤ, sampleEntity.matrixBufferCPU.data ≠ M.toList.map some) ∧
    Session.run ⟨sampleEntity, []⟩ [Op.Draw 9] =
      some ⟨sampleEntity,
        [VkCmd.BindDescriptorSets .VK_PIPELINE_BIND_POINT_GRAPHICS 9 0 [101] [],
          VkCmd.BindVertexBuffers 0 [11] [0],
          VkCmd.BindIndexBuffer 12 0 .VK_INDEX_TYPE_UINT16,
          VkCmd.DrawIndexed 36 1 0 0 1]⟩ ∧
    (Session.run ⟨sampleEntity, []⟩ [Op.Update sampleVP, Op.Draw 9]).map
        (fun s => s.entity.matrixBufferCPU.data) =
      some ((sampleVP * sampleEntity.GetModelMatrix.1).toList.map some) := by
  refine ⟨by decide, by decide, ?_, by decide, by decide⟩
  intro M hM
  have h0 : sampleEntity.matrixBufferCPU.data[0]? = (M.toList.map some)[0]? := by rw [hM]
  exact absurd h0 (by simp [sampleEntity, Entity.new_fst, glm.mat4.toList])

/-- C1, as stated, fails in `float`.  The parent matrix moves by `(1, 0, 0)`,
the position is `(2 ^ 24, 0, 0)`, the angles are `0` (cosine `1`, sine `0`)
and the scale is `(1, 1, 1)`; every entry is an integer that `float` holds
exactly.  The product `P * T * Ry * Rx * Rz * S` has `2 ^ 24 + 1` in row 0 of
column 3, which is not a `float`; `GetModelMatrix` returns `2 ^ 24` there.
Moreover a rotation by `1.5707964f` about Y of the identity has
`0.99999994` in row 1 of column 1, computed as `c + (1 - c) * 1`, where the
matrix `Ry` has `1`. -/
theorem GetModelMatrix_rounding_counterexample :
    (roundingTransform.map F32.ofInt).map F32.toInt? = roundingTransform.map some ∧
    ((entityOf (roundingTransform.map F32.ofInt)).GetModelMatrix.1.toMatrix 0 3).toInt? =
      some 16777216 ∧
    (roundingTransform.parentModelMatrix.toMatrix * Spec.T roundingTransform.pos *
        Spec.Ry roundingTransform.rot.y * Spec.Rx roundingTransform.rot.x *
        Spec.Rz roundingTransform.rot.z * Spec.S roundingTransform.scale) 0 3 = 16777217 ∧
    (F32.ofInt 16777217).toInt? = some 16777216 ∧
    (glm.rotate (glm.mat4.identity : glm.mat4 F32) (F32.fin 13176795 (-23))
        ⟨0, 1, 0⟩).toMatrix 1 1 = F32.fin 16777215 (-24) := by
  refine ⟨by decide, by decide, ?_, by decide, by decide⟩
  have h := Entity.toMatrix_GetModelMatrix (entityOf roundingTransform)
  have hv : (entityOf roundingTransform).GetModelMatrix.1.toMatrix 0 3 = 16777217 := by decide
  rw [h] at hv
  exact hv

/-- C3, as stated, fails in `float`.  First input: the parent matrix has
third column `(1, 0, 1, 0)` and fourth column `(1, 0, 0, 1)` and the position
is `(2 ^ 24, 0, 1)`, all integers that `float` holds exactly; the first entry
of `P * (pos, 1)` is `2 ^ 24 + 2`, which `float` holds too, and
`GetWorldPosition` returns `2 ^ 24`.  Second input: the parent matrix is the
identity and the position is `(1, +inf, 0)`; `GetWorldPosition` returns NaN
for the first coordinate, not `1`. -/
theorem GetWorldPosition_rounding_counterexample :
    (driftTransform.map F32.ofInt).map F32.toInt? = driftTransform.map some ∧
    (entityOf (driftTransform.map F32.ofInt)).GetWorldPosition.1.x.toInt? = some 16777216 ∧
    Matrix.mulVec driftTransform.parentModelMatrix.toMatrix
      ![driftTransform.pos.x, driftTransform.pos.y, driftTransform.pos.z, 1] 0 = 16777218 ∧
    (F32.ofInt 16777218).toInt? = some 16777218 ∧
    infiniteTransform.parentModelMatrix = glm.mat4.identity ∧
    infiniteTransform.pos.x = F32.fin 1 0 ∧
    (entityOf infiniteTransform).GetWorldPosition.1.x = F32.nan := by
  refine ⟨by decide, by decide, ?_, by decide, rfl, by decide, by decide⟩
  have h := (Entity.GetWorldPosition_exact (entityOf driftTransform)).1
  have hv : (entityOf driftTransform).GetWorldPosition.1.x = 16777218 := by decide
  rw [h] at hv
  exact hv

theorem GetWorldPosition_translation_column_witness :
    floatEntity.parentModelMatrix = glm.mat4.identity ∧
    Scalar.Plain (0 : F32) ∧ Scalar.Plain floatEntity.pos.x ∧ Scalar.Plain floatEntity.pos.y ∧
    Scalar.Plain floatEntity.pos.z ∧
    floatEntity.GetWorldPosition.1 = ⟨F32.fin 1 0, F32.fin 1 1, F32.fin 3 0⟩ :=
  ⟨rfl, by decide, by decide, by decide, by decide,
    (Entity.GetWorldPosition_translation_column floatEntity sampleEntity).2.2.2.1 rfl
      (by decide) (by decide) (by decide) (by decide)⟩

theorem Update_stores_mvp_witness :
    floatEntity.Allocated ∧
    (floatEntity.Update floatVP).map (fun e => e.matrixBufferCPU.data) =
      some ([F32.fin (-6151831) (-46), 0, F32.fin (-3) 1, 0,
        0, F32.fin 16777215 (-22), 0, 0,
        F32.fin 1 1, 0, F32.fin (-4613873) (-44), 0,
        F32.fin 3 1, F32.fin 5 1, F32.fin 1 4, F32.fin 1 0].map some) ∧
    ∃ e1 : Entity F32, floatEntity.Update floatVP = some e1 ∧
      e1.matrixBufferCPU.data.length = 16 ∧
      (∀ i j : Fin 4, e1.matrixBufferCPU.data[4 * j.val + i.val]? =
        some (some ((floatVP * floatEntity.GetModelMatrix.1).toMatrix i j))) ∧
      ∀ i j : Fin 4, (floatVP * floatEntity.GetModelMatrix.1).toMatrix i j =
        floatVP.toMatrix i 0 * floatEntity.GetModelMatrix.1.toMatrix 0 j +
          floatVP.toMatrix i 1 * floatEntity.GetModelMatrix.1.toMatrix 1 j +
          floatVP.toMatrix i 2 * floatEntity.GetModelMatrix.1.toMatrix 2 j +
          floatVP.toMatrix i 3 * floatEntity.GetModelMatrix.1.toMatrix 3 j :=
  ⟨by decide, by decide, Entity.Update_stores_mvp floatEntity floatVP (by decide)⟩

theorem getters_write_only_cache_witness :
    sampleEntity.Allocated ∧
    sampleEntity.GetModelMatrix.1 =
      ⟨⟨0, 0, -2, 0⟩, ⟨0, 2, 0, 0⟩, ⟨2, 0, 0, 0⟩, ⟨1, 2, 3, 1⟩⟩ ∧
    sampleEntity.GetModelMatrix.2.GetModelMatrix = sampleEntity.GetModelMatrix ∧
    ∃ e1 : Entity ℤ, sampleEntity.Update sampleVP = some e1 ∧
      e1 = { sampleEntity with
        modelMatrix := sampleEntity.GetModelMatrix.1
        matrixBufferCPU := e1.matrixBufferCPU } ∧
      e1.toTransform =
        { sampleEntity.toTransform with modelMatrix := sampleEntity.GetModelMatrix.1 } :=
  ⟨by decide, by decide,
    (Entity.getters_write_only_cache sampleEntity sampleVP (by decide)).2.1,
    (Entity.getters_write_only_cache sampleEntity sampleVP (by decide)).2.2.2⟩

theorem destructor_releases_only_uniform_buffer_witness :
    Resource.mesh sampleMesh ∈ sampleVk.live ∧
    Resource.texture sampleTexture ∈ sampleVk.live ∧
    sampleVkAfter.live =
      [Resource.descriptorSet 101, Resource.buffer 100, Resource.mesh sampleMesh,
        Resource.texture sampleTexture] ∧
    (sampleEntity.delete sampleVkAfter).live =
      [Resource.descriptorSet 101, Resource.mesh sampleMesh, Resource.texture sampleTexture] :=
  ⟨by decide, by decide,
    (Entity.destructor_releases_only_uniform_buffer sampleMesh sampleTexture sampleDemo
      sampleTransform 0 sampleVk (by decide) (by decide)).1,
    (Entity.destructor_releases_only_uniform_buffer sampleMesh sampleTexture sampleDemo
      sampleTransform 0 sampleVk (by decide) (by decide)).2.2.1⟩
